import Mathlib

/-!
Shallow embedding of the FolioFunnel conversion services
(`src/docker/marker-api/server.py` and
`src/docker/document-converter/server.py`).

The two servers are Flask applications whose own logic is authentication,
request validation, temp-file lifecycle and response shaping; the PDF
libraries they delegate to (marker, pymupdf4llm, PyMuPDF) are external
collaborators and are modelled as per-request oracles recording the outcome
of each library call (success value or raised exception message).

Filesystem effects (`tempfile.NamedTemporaryFile`, `os.path.exists`,
`os.unlink`) are modelled by an explicit `World` state threaded through each
handler, which also logs temp-file acquisitions, successful unlinks,
converter invocations and PyMuPDF document open/close calls, so that the
claims about effects ("deleted exactly once", "converter invoked zero
times", "handle closed before returning") are stated over the log.
-/

namespace FolioFunnel

/-- A parsed JSON value, as produced by Python's `json.loads`.  Used for the
optional `fields` form value of `/extract-metadata`. -/
inductive PyJson where
  | null
  | boolean (b : Bool)
  | num (n : Int)
  | str (s : String)
  | arr (elems : List PyJson)
  | obj (entries : List (String × PyJson))

/-- Python `s.lower()`, modelled at the character-list level (the claims only
exercise it on ASCII filenames and the `.pdf` suffix). -/
def pyLower (s : String) : String :=
  ⟨s.data.map Char.toLower⟩

/-- Python `s.endswith(suffix)`, modelled at the character-list level. -/
def pyEndsWith (s suffix : String) : Bool :=
  suffix.data.isSuffixOf s.data

/-- Python truthiness of a JSON value (`if requested_fields:`). -/
def PyJson.pyTruthy : PyJson → Bool
  | .null => false
  | .boolean b => b
  | .num n => n != 0
  | .str s => s != ""
  | .arr es => !es.isEmpty
  | .obj es => !es.isEmpty

/-- Python membership test `k in lst` for a string `k` and a parsed JSON
list: an element matches iff it is the JSON string equal to `k` (Python `==`
never equates a `str` with a number, bool, list or dict). -/
def pyInStr (k : String) : List PyJson → Bool
  | [] => false
  | PyJson.str s :: rest => s == k || pyInStr k rest
  | _ :: rest => pyInStr k rest

/-- A metadata value: every default field is a string except `pageCount`. -/
inductive MetaVal where
  | s (v : String)
  | n (v : Nat)
deriving DecidableEq

/-- Filesystem plus per-request effect log.
`fs` is the set of paths that exist on disk; the remaining fields log the
effects the handler performs: temp files acquired via
`tempfile.NamedTemporaryFile`, successful `os.unlink` calls, invocations of
the external converter, and `fitz.open`/`doc.close` calls. -/
structure World where
  fs : List String
  tempCreated : List String
  unlinked : List String
  converterCalls : Nat
  docOpened : Nat
  docClosed : Nat
deriving DecidableEq

/-- `tempfile.NamedTemporaryFile(suffix='.pdf', delete=False)`: the chosen
name comes into existence on disk and is logged. -/
def World.createTemp (w : World) (p : String) : World :=
  { w with fs := p :: w.fs, tempCreated := w.tempCreated ++ [p] }

/-- `os.path.exists(p)`. -/
def World.pathExists (w : World) (p : String) : Bool :=
  w.fs.contains p

/-- The effect of a successful `os.unlink(p)`: the path is removed from disk
and the deletion is logged. -/
def World.doUnlink (w : World) (p : String) : World :=
  { w with fs := w.fs.filter (fun q => q != p), unlinked := w.unlinked ++ [p] }

/-- `os.unlink(p)`: raises `FileNotFoundError` when the path is absent. -/
def osUnlink (w : World) (p : String) : Except String World :=
  if w.pathExists p then .ok (w.doUnlink p)
  else .error ("FileNotFoundError: " ++ p)

/-- The exception handlers' cleanup step
`if 'input_path' in locals() and os.path.exists(input_path): os.unlink(input_path)`,
for the case where `input_path` is bound: deletion guarded by an existence
check. -/
def cleanupOnError (w : World) (p : String) : World :=
  if w.pathExists p then w.doUnlink p else w

/-- The JSON body produced by `jsonify`: each handler populates a subset of
these keys; `none` means the key is absent from the emitted object. -/
structure Body where
  success : Option Bool := none
  markdown : Option String := none
  metadata : Option (List (String × MetaVal)) := none
  filename : Option String := none
  path : Option String := none
  error : Option String := none
deriving DecidableEq

/-- An HTTP response: status code and JSON body. -/
structure Response where
  status : Nat
  body : Body
deriving DecidableEq

/-- `jsonify({'error': msg}), code`. -/
def errorResponse (status : Nat) (msg : String) : Response :=
  ⟨status, { error := some msg }⟩

/-- An uploaded file as seen by the handler (`request.files['file']`). -/
structure UploadedFile where
  filename : String
deriving DecidableEq

/-- A multipart upload request: the `X-API-Key` header (absent or its string
value), the optional `file` part, and the optional `fields` form value used
by `/extract-metadata`. -/
structure UploadRequest where
  apiKey : Option String
  file : Option UploadedFile
  fields : Option String
deriving DecidableEq

/-- `API_KEY = os.environ.get(NAME, default)`: the configured secret is the
environment value when the variable is set (even to the empty string),
otherwise the hardcoded default. -/
def resolveApiKey (envValue : Option String) (defaultKey : String) : String :=
  envValue.getD defaultKey

/-- Python truthiness of `request.headers.get('X-API-Key')`: `None` and the
empty string are falsy. -/
def pyTruthyOptStr : Option String → Bool
  | none => false
  | some s => s != ""

/-- The `require_api_key` decorator: runs the wrapped handler only past
`if not provided_key or provided_key != API_KEY`, otherwise emits the 401
response without touching the world. -/
def require_api_key (secret : String) (provided : Option String)
    (handler : World → Response × World) (w : World) : Response × World :=
  if !pyTruthyOptStr provided || provided != some secret then
    (errorResponse 401 "Invalid or missing API key", w)
  else handler w

/-- The external behaviour, for one request, of the collaborators used by the
upload-shape conversion handlers: the temp name `tempfile` picks, the outcome
of `file.save` and the outcome of the library conversion call (markdown text,
or the raised exception's message). -/
structure ConvertOracle where
  tmpName : String
  saveResult : Except String Unit
  convertResult : Except String String

/-- The `convert_pdf` handler of `marker-api/server.py` (body of `/convert`,
after the auth gate).  Validation happens before the `try`; inside it the
temp file is acquired, the upload saved, the converter invoked, the temp file
unlinked and the success envelope emitted; the `except` block answers 500 and
runs the guarded cleanup only when `input_path` was bound, i.e. only when
`file.save` had completed. -/
def convert_pdf (req : UploadRequest) (orc : ConvertOracle) (w : World) :
    Response × World :=
  match req.file with
  | none => (errorResponse 400 "No file provided", w)
  | some file =>
    if file.filename = "" then (errorResponse 400 "No file selected", w)
    else if !(pyEndsWith (pyLower file.filename) ".pdf") then
      (errorResponse 400 "Only PDF files are supported", w)
    else
      let w1 := w.createTemp orc.tmpName
      match orc.saveResult with
      | .error e => (errorResponse 500 e, w1)
      | .ok _ =>
        let w2 := { w1 with converterCalls := w1.converterCalls + 1 }
        match orc.convertResult with
        | .ok markdown_text =>
          match osUnlink w2 orc.tmpName with
          | .ok w3 =>
            (⟨200, { success := some true, markdown := some markdown_text,
                     filename := some file.filename }⟩, w3)
          | .error e => (errorResponse 500 e, cleanupOnError w2 orc.tmpName)
        | .error e => (errorResponse 500 e, cleanupOnError w2 orc.tmpName)

/-- The `convert_pdf_mupdf` handler of `document-converter/server.py` (body
of `/convert-mupdf`).  Its control flow, validation messages, temp-file
lifecycle and response shapes are line-for-line those of `convert_pdf`; the
only difference is which external library the conversion oracle stands for. -/
def convert_pdf_mupdf : UploadRequest → ConvertOracle → World → Response × World :=
  convert_pdf

/-- External behaviour of the converter for the path-shape route (no temp
file and no save step there). -/
structure PathOracle where
  convertResult : Except String String

/-- The `convert_pdf_from_path` handler of `marker-api/server.py` (body of
`/convert-path`, after the auth gate).  The JSON body is modelled as an
optional JSON object with string values; `not data` is false exactly on a
non-empty object, and an empty object has no `path` key, so the first
rejection fires iff the body is absent or lacks `path`. -/
def convert_pdf_from_path (data : Option (List (String × String)))
    (orc : PathOracle) (w : World) : Response × World :=
  match data with
  | none => (errorResponse 400 "No path provided", w)
  | some entries =>
    match entries.lookup "path" with
    | none => (errorResponse 400 "No path provided", w)
    | some file_path =>
      if !(w.pathExists file_path) then
        (errorResponse 404 ("File not found: " ++ file_path), w)
      else if !(pyEndsWith (pyLower file_path) ".pdf") then
        (errorResponse 400 "Only PDF files are supported", w)
      else
        let w2 := { w with converterCalls := w.converterCalls + 1 }
        match orc.convertResult with
        | .ok markdown_text =>
          (⟨200, { success := some true, markdown := some markdown_text,
                   path := some file_path }⟩, w2)
        | .error e => (errorResponse 500 e, w2)

/-- The value of the Python variable `requested_fields` after the parsing
prelude of `extract_pdf_metadata`: `None` from `request.form.get`, the raw
string when it was falsy (empty) and parsing was skipped, or the parsed JSON
value. -/
inductive FieldsVal where
  | pynone
  | pystr (s : String)
  | pyjson (j : PyJson)

/-- Python truthiness of `requested_fields`. -/
def FieldsVal.truthy : FieldsVal → Bool
  | .pynone => false
  | .pystr s => s != ""
  | .pyjson j => j.pyTruthy

/-- `isinstance(requested_fields, list)`, returning the list elements. -/
def FieldsVal.asList : FieldsVal → Option (List PyJson)
  | .pyjson (.arr es) => some es
  | _ => none

/-- Lines 116-122 of `document-converter/server.py`:
`requested_fields = request.form.get('fields')`, then—only when that value
is truthy—`json.loads`, with any parse exception replacing the value by
`None`. -/
def getRequestedFields (fieldsForm : Option String)
    (loadsResult : Except Unit PyJson) : FieldsVal :=
  match fieldsForm with
  | none => .pynone
  | some s =>
    if s != "" then
      match loadsResult with
      | .ok j => .pyjson j
      | .error _ => .pynone
    else .pystr s

/-- Python `d.get(k, '')` on the string-valued metadata dict. -/
def pyGet (d : List (String × String)) (k : String) : String :=
  (d.lookup k).getD ""

/-- The ten default metadata field names, in the order the handler builds
them. -/
def defaultFieldNames : List String :=
  ["title", "author", "subject", "keywords", "creator", "producer",
   "creationDate", "modDate", "pageCount", "format"]

/-- The `all_metadata` dict of `extract_pdf_metadata`: each string field read
from `doc.metadata` with `''` as default, plus `pageCount` from
`doc.page_count`. -/
def all_metadata (pdf_metadata : List (String × String)) (page_count : Nat) :
    List (String × MetaVal) :=
  [("title", .s (pyGet pdf_metadata "title")),
   ("author", .s (pyGet pdf_metadata "author")),
   ("subject", .s (pyGet pdf_metadata "subject")),
   ("keywords", .s (pyGet pdf_metadata "keywords")),
   ("creator", .s (pyGet pdf_metadata "creator")),
   ("producer", .s (pyGet pdf_metadata "producer")),
   ("creationDate", .s (pyGet pdf_metadata "creationDate")),
   ("modDate", .s (pyGet pdf_metadata "modDate")),
   ("pageCount", .n page_count),
   ("format", .s (pyGet pdf_metadata "format"))]

/-- `if requested_fields and isinstance(requested_fields, list):` followed by
the key-filtering dict comprehension, else the full dict. -/
def applyFieldFilter (rf : FieldsVal) (allm : List (String × MetaVal)) :
    List (String × MetaVal) :=
  if rf.truthy then
    match rf.asList with
    | some es => allm.filter (fun kv => pyInStr kv.1 es)
    | none => allm
  else allm

/-- External behaviour, for one request, of the collaborators used by
`extract_pdf_metadata`: temp name, `file.save` outcome, `json.loads` outcome
on the `fields` string, `fitz.open` outcome, the outcome of reading
`doc.metadata` (which may legitimately be `None`, hence the inner Option),
and `doc.page_count`. -/
structure MetadataOracle where
  tmpName : String
  saveResult : Except String Unit
  loadsResult : Except Unit PyJson
  openResult : Except String Unit
  metadataResult : Except String (Option (List (String × String)))
  pageCount : Nat

/-- The `extract_pdf_metadata` handler of `document-converter/server.py`
(body of `/extract-metadata`, after the auth gate).  Validation and the
permissive `fields` parsing happen before the `try`; inside it the temp file
is acquired, the upload saved, the document opened, the metadata dict built,
the document closed, the filter applied, the temp file unlinked and the
success envelope emitted.  The `except` block answers 500 with the guarded
cleanup; note that it does not close the document, so an exception raised
between `fitz.open` and `doc.close()` leaves the handle open. -/
def extract_pdf_metadata (req : UploadRequest) (orc : MetadataOracle)
    (w : World) : Response × World :=
  match req.file with
  | none => (errorResponse 400 "No file provided", w)
  | some file =>
    if file.filename = "" then (errorResponse 400 "No file selected", w)
    else if !(pyEndsWith (pyLower file.filename) ".pdf") then
      (errorResponse 400 "Only PDF files are supported", w)
    else
      let requested_fields := getRequestedFields req.fields orc.loadsResult
      let w1 := w.createTemp orc.tmpName
      match orc.saveResult with
      | .error e => (errorResponse 500 e, w1)
      | .ok _ =>
        match orc.openResult with
        | .error e => (errorResponse 500 e, cleanupOnError w1 orc.tmpName)
        | .ok _ =>
          let w2 := { w1 with docOpened := w1.docOpened + 1 }
          match orc.metadataResult with
          | .error e => (errorResponse 500 e, cleanupOnError w2 orc.tmpName)
          | .ok metaOpt =>
            let pdf_metadata := metaOpt.getD []
            let allm := all_metadata pdf_metadata orc.pageCount
            let w3 := { w2 with docClosed := w2.docClosed + 1 }
            let metadata := applyFieldFilter requested_fields allm
            match osUnlink w3 orc.tmpName with
            | .ok w4 =>
              (⟨200, { success := some true, metadata := some metadata,
                       filename := some file.filename }⟩, w4)
            | .error e => (errorResponse 500 e, cleanupOnError w3 orc.tmpName)

/-- `/convert` (marker-api): auth gate around `convert_pdf`. -/
def convertRoute (secret : String) (req : UploadRequest) (orc : ConvertOracle)
    (w : World) : Response × World :=
  require_api_key secret req.apiKey (fun w0 => convert_pdf req orc w0) w

/-- `/convert-mupdf` (document-converter): auth gate around
`convert_pdf_mupdf`. -/
def convertMupdfRoute (secret : String) (req : UploadRequest)
    (orc : ConvertOracle) (w : World) : Response × World :=
  require_api_key secret req.apiKey (fun w0 => convert_pdf_mupdf req orc w0) w

/-- `/convert-path` (marker-api): auth gate around `convert_pdf_from_path`. -/
def convertPathRoute (secret : String) (apiKey : Option String)
    (data : Option (List (String × String))) (orc : PathOracle) (w : World) :
    Response × World :=
  require_api_key secret apiKey (fun w0 => convert_pdf_from_path data orc w0) w

/-- `/extract-metadata` (document-converter): auth gate around
`extract_pdf_metadata`. -/
def extractMetadataRoute (secret : String) (req : UploadRequest)
    (orc : MetadataOracle) (w : World) : Response × World :=
  require_api_key secret req.apiKey (fun w0 => extract_pdf_metadata req orc w0) w

/-- The envelope discipline of every route response: a 200 response carries
`success = true`, a payload (`markdown` or `metadata`) and an identifying
field (`filename` or `path`) and no `error`; every non-200 response carries
an `error` field and no other key. -/
def exclusiveEnvelope (r : Response) : Prop :=
  if r.status = 200 then
    r.body.error = none ∧ r.body.success = some true ∧
    (r.body.markdown.isSome = true ∨ r.body.metadata.isSome = true) ∧
    (r.body.filename.isSome = true ∨ r.body.path.isSome = true)
  else
    r.body.error.isSome = true ∧ r.body.success = none ∧ r.body.markdown = none ∧
    r.body.metadata = none ∧ r.body.filename = none ∧ r.body.path = none

/-- Every failure response other than a 500 — that is, every error message
the service itself generates rather than copying from a raised library
exception — has a non-empty error string. -/
def serviceErrorsNonEmpty (r : Response) : Prop :=
  r.status ≠ 200 → r.status ≠ 500 → r.body.error ≠ some ""

end FolioFunnel

namespace FolioFunnel

/-! ### Helper lemmas -/

theorem not_mem_filter_bne (l : List String) (p : String) :
    p ∉ l.filter (fun q => q != p) := by
  intro h
  have h2 := (List.mem_filter.mp h).2
  simp at h2

theorem contains_filter_bne (l : List String) (p : String) :
    (l.filter (fun q => q != p)).contains p = false := by
  simp only [List.contains, List.elem_eq_mem, decide_eq_false_iff_not]
  exact not_mem_filter_bne l p

theorem contains_cons_self (l : List String) (p : String) :
    (p :: l).contains p = true := by
  simp only [List.contains, List.elem_eq_mem, decide_eq_true_eq]
  exact List.mem_cons_self p l

theorem map_fst_filter_key (p : String → Bool) (l : List (String × MetaVal)) :
    (l.filter (fun kv => p kv.1)).map Prod.fst = (l.map Prod.fst).filter p := by
  induction l with
  | nil => rfl
  | cons a t ih =>
    by_cases h : p a.1 <;> simp [List.filter_cons, h, ih]

theorem append_ne_empty_left (s t : String) (h : s ≠ "") : s ++ t ≠ "" := by
  cases s with
  | mk ls =>
    cases t with
    | mk lt =>
      intro he
      apply h
      have h2 : ls ++ lt = [] := congrArg String.data he
      have h3 := List.append_eq_nil.mp h2
      rw [h3.1]

/-- Shared reduction of `extract_pdf_metadata` on its success path: with a
valid upload, a successful save, open and metadata read, the response is the
200 envelope whose metadata is the filtered default dict. -/
theorem extract_success_response (req : UploadRequest) (orc : MetadataOracle)
    (w : World) (f : UploadedFile) (hfile : req.file = some f)
    (hname : f.filename ≠ "")
    (hpdf : pyEndsWith (pyLower f.filename) ".pdf" = true)
    (hsave : orc.saveResult = .ok ())
    (hopen : orc.openResult = .ok ())
    (pdOpt : Option (List (String × String)))
    (hmeta : orc.metadataResult = .ok pdOpt) :
    (extract_pdf_metadata req orc w).1
      = ⟨200, { success := some true,
                metadata := some (applyFieldFilter
                  (getRequestedFields req.fields orc.loadsResult)
                  (all_metadata (pdOpt.getD []) orc.pageCount)),
                filename := some f.filename }⟩ := by
  obtain ⟨tmp, save, loads, openR, metaR, pc⟩ := orc
  simp only at hsave hopen hmeta
  subst hsave; subst hopen; subst hmeta
  simp [extract_pdf_metadata, hfile, hname, hpdf, osUnlink, World.createTemp,
    World.pathExists, contains_cons_self, World.doUnlink]

/-! ### C1 -/

/-- C1: for every upload-shape request that passes validation and whose
upload is saved (so that `input_path` is bound and the remaining exit paths
are normal completion or an exception raised during conversion), the temp
file acquired for the uploaded bytes is deleted exactly once before the
response is returned — the unlink log gains exactly one entry for it — and
after the response it no longer exists on disk. -/
theorem temp_file_deleted_exactly_once (req : UploadRequest)
    (orc : ConvertOracle) (w : World) (f : UploadedFile)
    (hfile : req.file = some f) (hname : f.filename ≠ "")
    (hpdf : pyEndsWith (pyLower f.filename) ".pdf" = true)
    (hsave : orc.saveResult = .ok ()) :
    ((convert_pdf req orc w).2.unlinked = w.unlinked ++ [orc.tmpName]) ∧
    ((convert_pdf req orc w).2.pathExists orc.tmpName = false) ∧
    ((convert_pdf req orc w).2.tempCreated = w.tempCreated ++ [orc.tmpName]) := by
  obtain ⟨tmp, save, conv⟩ := orc
  simp only at hsave
  subst hsave
  cases conv with
  | ok md =>
    simp [convert_pdf, hfile, hname, hpdf, osUnlink, World.createTemp, World.doUnlink,
      World.pathExists, contains_cons_self, contains_filter_bne]
  | error e =>
    simp [convert_pdf, hfile, hname, hpdf, osUnlink, cleanupOnError, World.createTemp,
      World.doUnlink, World.pathExists, contains_cons_self, contains_filter_bne]

/-- Witness for C1 at a concrete successful conversion. -/
theorem temp_file_deleted_exactly_once_witness :
    ((convert_pdf ⟨some "k", some ⟨"doc.pdf"⟩, none⟩
        ⟨"/tmp/t1.pdf", .ok (), .ok "md"⟩ ⟨[], [], [], 0, 0, 0⟩).2.unlinked
      = [] ++ ["/tmp/t1.pdf"]) ∧
    ((convert_pdf ⟨some "k", some ⟨"doc.pdf"⟩, none⟩
        ⟨"/tmp/t1.pdf", .ok (), .ok "md"⟩ ⟨[], [], [], 0, 0, 0⟩).2.pathExists
          "/tmp/t1.pdf" = false) ∧
    ((convert_pdf ⟨some "k", some ⟨"doc.pdf"⟩, none⟩
        ⟨"/tmp/t1.pdf", .ok (), .ok "md"⟩ ⟨[], [], [], 0, 0, 0⟩).2.tempCreated
      = [] ++ ["/tmp/t1.pdf"]) :=
  temp_file_deleted_exactly_once _ _ _ ⟨"doc.pdf"⟩ rfl (by decide) (by decide) rfl

end FolioFunnel

namespace FolioFunnel

/-! ### C2 -/

/-- C2 counterexample: the claim "authorized iff the header is present and
equals the configured secret by exact string match" fails when the
environment variable is set to the empty string: the secret resolves to
`""`, the header is present and equal to it, yet `if not provided_key`
treats the empty header as missing and the gate answers 401 — even for an
otherwise fully valid request. -/
theorem api_key_exact_match_counterexample :
    resolveApiKey (some "") "marker_secret_key" = "" ∧
    (some "" : Option String) ≠ none ∧
    (convertRoute (resolveApiKey (some "") "marker_secret_key")
        ⟨some "", some ⟨"a.pdf"⟩, none⟩ ⟨"/tmp/c2.pdf", .ok (), .ok "md"⟩
        ⟨[], [], [], 0, 0, 0⟩).1 = errorResponse 401 "Invalid or missing API key" := by
  refine ⟨rfl, by decide, by decide⟩

/-- C2 (amended): a request to a protected route is authorized iff the
`X-API-Key` header is present, non-empty and equal to the configured secret
by exact string match; otherwise the response is 401 with body
`error = "Invalid or missing API key"`, the world is returned untouched and
the wrapped handler — hence any validation, temp-file creation or
conversion — never runs (the 401 result is the same for every handler). -/
theorem auth_gate_iff (secret : String) (provided : Option String)
    (handler : World → Response × World) (w : World) :
    ((∃ k, provided = some k ∧ k ≠ "" ∧ k = secret) →
        require_api_key secret provided handler w = handler w) ∧
    ((∀ k, provided = some k → k = "" ∨ k ≠ secret) →
        require_api_key secret provided handler w
          = (errorResponse 401 "Invalid or missing API key", w)) := by
  constructor
  · rintro ⟨k, rfl, hne, rfl⟩
    simp [require_api_key, pyTruthyOptStr, hne]
  · intro h
    cases provided with
    | none => simp [require_api_key, pyTruthyOptStr]
    | some k =>
      rcases h k rfl with rfl | hne
      · simp [require_api_key, pyTruthyOptStr]
      · simp [require_api_key, pyTruthyOptStr, hne]

/-- Witness for C2 (amended): a matching non-empty key runs the handler, a
missing key yields the 401 envelope. -/
theorem auth_gate_iff_witness :
    require_api_key "s3cr3t" (some "s3cr3t")
        (fun w0 => (errorResponse 400 "No file provided", w0)) ⟨[], [], [], 0, 0, 0⟩
      = (errorResponse 400 "No file provided", ⟨[], [], [], 0, 0, 0⟩) ∧
    require_api_key "s3cr3t" none
        (fun w0 => (errorResponse 400 "No file provided", w0)) ⟨[], [], [], 0, 0, 0⟩
      = (errorResponse 401 "Invalid or missing API key", ⟨[], [], [], 0, 0, 0⟩) :=
  ⟨(auth_gate_iff "s3cr3t" (some "s3cr3t") _ _).1 ⟨"s3cr3t", rfl, by decide, rfl⟩,
   (auth_gate_iff "s3cr3t" none _ _).2 (fun k hk => nomatch hk)⟩

/-! ### C3 -/

/-- C3 counterexample: with `fields` successfully parsing as the JSON list
`[]`, the claim demands that the returned mapping contain exactly the
default keys occurring in that list — none — but the handler returns all
ten default keys, because the empty Python list is falsy and the filter
condition `requested_fields and isinstance(requested_fields, list)` is
skipped. -/
theorem fields_empty_list_counterexample :
    ((extract_pdf_metadata ⟨some "k", some ⟨"a.pdf"⟩, some "[]"⟩
        ⟨"/tmp/c3.pdf", .ok (), .ok (.arr []), .ok (), .ok (some []), 3⟩
        ⟨[], [], [], 0, 0, 0⟩).1.body.metadata.map (fun m => m.map Prod.fst))
      = some defaultFieldNames ∧
    defaultFieldNames ≠ [] ∧
    defaultFieldNames.filter (fun k => pyInStr k []) = [] := by decide

/-- C3 (amended): for every valid `/extract-metadata` request on the
conversion success path, if the `fields` form value successfully parses as a
NON-EMPTY JSON list, the returned mapping contains exactly the default keys
occurring in that list (unknown requested keys silently dropped); if the
value fails to parse as JSON or does not parse to a list, all default fields
are returned and no error is raised (status 200). -/
theorem metadata_field_filter (req : UploadRequest) (orc : MetadataOracle)
    (w : World) (f : UploadedFile) (hfile : req.file = some f)
    (hname : f.filename ≠ "")
    (hpdf : pyEndsWith (pyLower f.filename) ".pdf" = true)
    (hsave : orc.saveResult = .ok ())
    (hopen : orc.openResult = .ok ())
    (pdOpt : Option (List (String × String)))
    (hmeta : orc.metadataResult = .ok pdOpt) :
    (∀ s es, req.fields = some s → s ≠ "" → orc.loadsResult = .ok (.arr es) → es ≠ [] →
        (extract_pdf_metadata req orc w).1.status = 200 ∧
        ((extract_pdf_metadata req orc w).1.body.metadata.map (fun m => m.map Prod.fst))
          = some (defaultFieldNames.filter (fun k => pyInStr k es))) ∧
    (∀ s, req.fields = some s → s ≠ "" →
        (orc.loadsResult = .error () ∨ ∀ es, orc.loadsResult ≠ .ok (.arr es)) →
        (extract_pdf_metadata req orc w).1.status = 200 ∧
        (extract_pdf_metadata req orc w).1.body.metadata
          = some (all_metadata (pdOpt.getD []) orc.pageCount)) := by
  have hresp := extract_success_response req orc w f hfile hname hpdf hsave hopen pdOpt hmeta
  constructor
  · rintro s es hs hsne hloads hesne
    rw [hresp]
    refine ⟨rfl, ?_⟩
    have htr : PyJson.pyTruthy (.arr es) = true := by
      cases es with
      | nil => exact absurd rfl hesne
      | cons e tail => rfl
    simp [getRequestedFields, hs, hsne, hloads, applyFieldFilter, FieldsVal.truthy,
      FieldsVal.asList, htr]
    rw [map_fst_filter_key (fun k => pyInStr k es)]
    rfl
  · rintro s hs hsne hbad
    rw [hresp]
    refine ⟨rfl, ?_⟩
    rcases hbad with hload | hnotarr
    · simp [getRequestedFields, hs, hsne, hload, applyFieldFilter, FieldsVal.truthy]
    · cases hl : orc.loadsResult with
      | error u => simp [getRequestedFields, hs, hsne, hl, applyFieldFilter, FieldsVal.truthy]
      | ok j =>
        cases j with
        | arr es => exact absurd hl (hnotarr es)
        | null => simp [getRequestedFields, hs, hsne, hl, applyFieldFilter, FieldsVal.truthy,
            FieldsVal.asList, PyJson.pyTruthy]
        | boolean b => simp [getRequestedFields, hs, hsne, hl, applyFieldFilter,
            FieldsVal.truthy, FieldsVal.asList, PyJson.pyTruthy]
        | num n => simp [getRequestedFields, hs, hsne, hl, applyFieldFilter,
            FieldsVal.truthy, FieldsVal.asList, PyJson.pyTruthy]
        | str t => simp [getRequestedFields, hs, hsne, hl, applyFieldFilter,
            FieldsVal.truthy, FieldsVal.asList, PyJson.pyTruthy]
        | obj es => simp [getRequestedFields, hs, hsne, hl, applyFieldFilter,
            FieldsVal.truthy, FieldsVal.asList, PyJson.pyTruthy]

/-- Witness for C3 (amended): the filter `["title","pageCount","bogus"]`
yields exactly the keys `title` and `pageCount`; the unknown key is
dropped. -/
theorem metadata_field_filter_witness :
    ((extract_pdf_metadata ⟨some "k", some ⟨"a.pdf"⟩, some "f"⟩
        ⟨"/tmp/m3.pdf", .ok (), .ok (.arr [.str "title", .str "pageCount", .str "bogus"]),
         .ok (), .ok (some []), 3⟩ ⟨[], [], [], 0, 0, 0⟩).1.body.metadata.map
          (fun m => m.map Prod.fst))
      = some ["title", "pageCount"] := by
  have h := (metadata_field_filter ⟨some "k", some ⟨"a.pdf"⟩, some "f"⟩
      ⟨"/tmp/m3.pdf", .ok (), .ok (.arr [.str "title", .str "pageCount", .str "bogus"]),
       .ok (), .ok (some []), 3⟩ ⟨[], [], [], 0, 0, 0⟩ ⟨"a.pdf"⟩ rfl (by decide) (by decide)
      rfl rfl (some []) rfl).1 "f" [.str "title", .str "pageCount", .str "bogus"] rfl
      (by decide) rfl (List.cons_ne_nil _ _)
  rw [h.2]
  decide

end FolioFunnel

namespace FolioFunnel

/-! ### C4 -/

/-- C4: on `/convert-path`, a missing JSON body or missing `path` key yields
400 regardless of the filesystem; otherwise a nonexistent path yields 404
with the world — and hence the converter-invocation count — unchanged
(converter invoked zero times); otherwise a non-`.pdf` extension
(case-insensitive) yields 400; the checks apply in that order (the 404 case
needs no extension assumption, the extension case assumes existence). -/
theorem convert_path_check_order (data : Option (List (String × String)))
    (orc : PathOracle) (w : World) :
    ((data = none ∨ ∃ entries, data = some entries ∧ entries.lookup "path" = none) →
        convert_pdf_from_path data orc w = (errorResponse 400 "No path provided", w)) ∧
    (∀ entries p, data = some entries → entries.lookup "path" = some p →
        w.pathExists p = false →
        convert_pdf_from_path data orc w
          = (errorResponse 404 ("File not found: " ++ p), w)) ∧
    (∀ entries p, data = some entries → entries.lookup "path" = some p →
        w.pathExists p = true → pyEndsWith (pyLower p) ".pdf" = false →
        convert_pdf_from_path data orc w
          = (errorResponse 400 "Only PDF files are supported", w)) := by
  refine ⟨?_, ?_, ?_⟩
  · rintro (rfl | ⟨entries, rfl, hl⟩)
    · rfl
    · simp [convert_pdf_from_path, hl]
  · rintro entries p rfl hl hex
    simp [convert_pdf_from_path, hl, hex]
  · rintro entries p rfl hl hex hpdf
    simp [convert_pdf_from_path, hl, hex, hpdf]

/-- Witness for C4: the three rejection branches at concrete inputs. -/
theorem convert_path_check_order_witness :
    convert_pdf_from_path none ⟨.ok "md"⟩ ⟨[], [], [], 0, 0, 0⟩
      = (errorResponse 400 "No path provided", ⟨[], [], [], 0, 0, 0⟩) ∧
    convert_pdf_from_path (some [("path", "/data/x.pdf")]) ⟨.ok "md"⟩ ⟨[], [], [], 0, 0, 0⟩
      = (errorResponse 404 ("File not found: " ++ "/data/x.pdf"), ⟨[], [], [], 0, 0, 0⟩) ∧
    convert_pdf_from_path (some [("path", "/data/x.txt")]) ⟨.ok "md"⟩
        ⟨["/data/x.txt"], [], [], 0, 0, 0⟩
      = (errorResponse 400 "Only PDF files are supported",
         ⟨["/data/x.txt"], [], [], 0, 0, 0⟩) :=
  ⟨(convert_path_check_order none ⟨.ok "md"⟩ ⟨[], [], [], 0, 0, 0⟩).1 (Or.inl rfl),
   (convert_path_check_order (some [("path", "/data/x.pdf")]) ⟨.ok "md"⟩
      ⟨[], [], [], 0, 0, 0⟩).2.1 [("path", "/data/x.pdf")] "/data/x.pdf" rfl (by decide)
      (by decide),
   (convert_path_check_order (some [("path", "/data/x.txt")]) ⟨.ok "md"⟩
      ⟨["/data/x.txt"], [], [], 0, 0, 0⟩).2.2 [("path", "/data/x.txt")] "/data/x.txt" rfl
      (by decide) (by decide) (by decide)⟩

/-! ### C5 -/

/-- C5: every upload-shape request is rejected with 400 — and the world,
hence the temp-file log, is untouched — when the file field is absent
("No file provided"), when the filename is empty ("No file selected"), and
when the filename's extension is not `.pdf` case-insensitively
("Only PDF files are supported"), in that check order: the empty-filename
rejection needs no extension assumption, the extension rejection assumes a
non-empty filename. -/
theorem upload_validation_order (req : UploadRequest) (orc : ConvertOracle)
    (w : World) :
    (req.file = none →
        convert_pdf req orc w = (errorResponse 400 "No file provided", w)) ∧
    (∀ f, req.file = some f → f.filename = "" →
        convert_pdf req orc w = (errorResponse 400 "No file selected", w)) ∧
    (∀ f, req.file = some f → f.filename ≠ "" →
        pyEndsWith (pyLower f.filename) ".pdf" = false →
        convert_pdf req orc w = (errorResponse 400 "Only PDF files are supported", w)) := by
  refine ⟨fun h => by simp [convert_pdf, h],
          fun f hf he => by simp [convert_pdf, hf, he],
          fun f hf hne hext => by simp [convert_pdf, hf, hne, hext]⟩

/-- Witness for C5, in particular the spec scenario `notes.txt` → 400 with
`error = "Only PDF files are supported"` and no temp file created. -/
theorem upload_validation_order_witness :
    convert_pdf ⟨some "k", none, none⟩ ⟨"/tmp/t5.pdf", .ok (), .ok "md"⟩
        ⟨[], [], [], 0, 0, 0⟩
      = (errorResponse 400 "No file provided", ⟨[], [], [], 0, 0, 0⟩) ∧
    convert_pdf ⟨some "k", some ⟨""⟩, none⟩ ⟨"/tmp/t5.pdf", .ok (), .ok "md"⟩
        ⟨[], [], [], 0, 0, 0⟩
      = (errorResponse 400 "No file selected", ⟨[], [], [], 0, 0, 0⟩) ∧
    convert_pdf ⟨some "k", some ⟨"notes.txt"⟩, none⟩ ⟨"/tmp/t5.pdf", .ok (), .ok "md"⟩
        ⟨[], [], [], 0, 0, 0⟩
      = (errorResponse 400 "Only PDF files are supported", ⟨[], [], [], 0, 0, 0⟩) :=
  ⟨(upload_validation_order ⟨some "k", none, none⟩ ⟨"/tmp/t5.pdf", .ok (), .ok "md"⟩
      ⟨[], [], [], 0, 0, 0⟩).1 rfl,
   (upload_validation_order ⟨some "k", some ⟨""⟩, none⟩ ⟨"/tmp/t5.pdf", .ok (), .ok "md"⟩
      ⟨[], [], [], 0, 0, 0⟩).2.1 _ rfl rfl,
   (upload_validation_order ⟨some "k", some ⟨"notes.txt"⟩, none⟩
      ⟨"/tmp/t5.pdf", .ok (), .ok "md"⟩ ⟨[], [], [], 0, 0, 0⟩).2.2 _ rfl (by decide)
      (by decide)⟩

end FolioFunnel

namespace FolioFunnel

/-! ### C6 -/

theorem envelope_require_api_key (secret : String) (provided : Option String)
    (handler : World → Response × World) (w : World)
    (hh : exclusiveEnvelope (handler w).1 ∧ serviceErrorsNonEmpty (handler w).1) :
    exclusiveEnvelope (require_api_key secret provided handler w).1 ∧
    serviceErrorsNonEmpty (require_api_key secret provided handler w).1 := by
  unfold require_api_key
  split
  · simp [exclusiveEnvelope, serviceErrorsNonEmpty, errorResponse]
  · exact hh

theorem envelope_convert_pdf (req : UploadRequest) (orc : ConvertOracle) (w : World) :
    exclusiveEnvelope (convert_pdf req orc w).1 ∧
    serviceErrorsNonEmpty (convert_pdf req orc w).1 := by
  unfold convert_pdf
  repeat' split
  all_goals simp [exclusiveEnvelope, serviceErrorsNonEmpty, errorResponse, osUnlink,
    World.createTemp, World.pathExists, contains_cons_self, World.doUnlink, cleanupOnError]

theorem envelope_convert_path (data : Option (List (String × String)))
    (orc : PathOracle) (w : World) :
    exclusiveEnvelope (convert_pdf_from_path data orc w).1 ∧
    serviceErrorsNonEmpty (convert_pdf_from_path data orc w).1 := by
  unfold convert_pdf_from_path
  repeat' split
  all_goals simp [exclusiveEnvelope, serviceErrorsNonEmpty, errorResponse, apply_ite]
  all_goals exact append_ne_empty_left _ _ (by decide)

theorem envelope_extract_metadata (req : UploadRequest) (orc : MetadataOracle) (w : World) :
    exclusiveEnvelope (extract_pdf_metadata req orc w).1 ∧
    serviceErrorsNonEmpty (extract_pdf_metadata req orc w).1 := by
  unfold extract_pdf_metadata
  repeat' split
  all_goals simp [exclusiveEnvelope, serviceErrorsNonEmpty, errorResponse, osUnlink,
    World.createTemp, World.pathExists, contains_cons_self, World.doUnlink, cleanupOnError]

/-- C6 counterexample: the claim requires every failure response's `error`
field to be a non-empty string, but when the conversion library raises an
exception whose message is empty (legal in Python: `str(e)` of a bare
`Exception()` is `""`), the 500 response copies that empty string into
`error` verbatim. -/
theorem error_string_empty_counterexample :
    (convertRoute "k" ⟨some "k", some ⟨"a.pdf"⟩, none⟩
        ⟨"/tmp/c6.pdf", .ok (), .error ""⟩ ⟨[], [], [], 0, 0, 0⟩).1.status = 500 ∧
    (convertRoute "k" ⟨some "k", some ⟨"a.pdf"⟩, none⟩
        ⟨"/tmp/c6.pdf", .ok (), .error ""⟩ ⟨[], [], [], 0, 0, 0⟩).1.body.error
      = some "" := by decide

/-- C6 (amended): every response of every conversion route satisfies the
envelope discipline — exactly one of payload and `error` is populated, every
200 response has `success = true`, a non-null payload and an identifying
field, every failure carries an `error` field and no payload — and the error
string is non-empty for every service-generated failure (auth, validation,
not-found); a 500 carries the library's exception text verbatim, which may
be empty. -/
theorem response_envelope_shape (secret : String) (req : UploadRequest)
    (orcC : ConvertOracle) (apiKey : Option String)
    (data : Option (List (String × String))) (orcP : PathOracle)
    (orcM : MetadataOracle) (w1 w2 w3 w4 : World) :
    (exclusiveEnvelope (convertRoute secret req orcC w1).1 ∧
     serviceErrorsNonEmpty (convertRoute secret req orcC w1).1) ∧
    (exclusiveEnvelope (convertMupdfRoute secret req orcC w2).1 ∧
     serviceErrorsNonEmpty (convertMupdfRoute secret req orcC w2).1) ∧
    (exclusiveEnvelope (convertPathRoute secret apiKey data orcP w3).1 ∧
     serviceErrorsNonEmpty (convertPathRoute secret apiKey data orcP w3).1) ∧
    (exclusiveEnvelope (extractMetadataRoute secret req orcM w4).1 ∧
     serviceErrorsNonEmpty (extractMetadataRoute secret req orcM w4).1) :=
  ⟨envelope_require_api_key _ _ _ _ (envelope_convert_pdf req orcC w1),
   envelope_require_api_key _ _ _ _ (envelope_convert_pdf req orcC w2),
   envelope_require_api_key _ _ _ _ (envelope_convert_path data orcP w3),
   envelope_require_api_key _ _ _ _ (envelope_extract_metadata req orcM w4)⟩

/-- Witness for C6 (amended) at a concrete successful request. -/
theorem response_envelope_shape_witness :
    exclusiveEnvelope (convertRoute "k" ⟨some "k", some ⟨"a.pdf"⟩, none⟩
        ⟨"/tmp/w6.pdf", .ok (), .ok "md"⟩ ⟨[], [], [], 0, 0, 0⟩).1 :=
  (response_envelope_shape "k" ⟨some "k", some ⟨"a.pdf"⟩, none⟩
      ⟨"/tmp/w6.pdf", .ok (), .ok "md"⟩ none none ⟨.ok "md"⟩
      ⟨"/tmp/w6.pdf", .ok (), .error (), .ok (), .ok none, 0⟩
      ⟨[], [], [], 0, 0, 0⟩ ⟨[], [], [], 0, 0, 0⟩ ⟨[], [], [], 0, 0, 0⟩
      ⟨[], [], [], 0, 0, 0⟩).1.1

end FolioFunnel

namespace FolioFunnel

/-! ### C7 -/

/-- C7: for every successful `/extract-metadata` request with no `fields`
filter, the returned mapping is exactly the default dict: its keys are
precisely the ten default field names, `pageCount` is the document's page
count, and every other field is the document's corresponding property with
`""` as the default when the document does not provide it. -/
theorem default_metadata_fields (req : UploadRequest) (orc : MetadataOracle)
    (w : World) (f : UploadedFile) (hfile : req.file = some f)
    (hname : f.filename ≠ "")
    (hpdf : pyEndsWith (pyLower f.filename) ".pdf" = true)
    (hfields : req.fields = none)
    (hsave : orc.saveResult = .ok ())
    (hopen : orc.openResult = .ok ())
    (pd : List (String × String))
    (hmeta : orc.metadataResult = .ok (some pd)) :
    (extract_pdf_metadata req orc w).1.status = 200 ∧
    (extract_pdf_metadata req orc w).1.body.metadata
      = some (all_metadata pd orc.pageCount) ∧
    ((all_metadata pd orc.pageCount).map Prod.fst = defaultFieldNames) ∧
    ((all_metadata pd orc.pageCount).lookup "pageCount" = some (.n orc.pageCount)) ∧
    (∀ k, k ∈ defaultFieldNames → k ≠ "pageCount" →
        (all_metadata pd orc.pageCount).lookup k = some (.s (pyGet pd k))) := by
  have hresp := extract_success_response req orc w f hfile hname hpdf hsave hopen (some pd) hmeta
  refine ⟨by rw [hresp], ?_, rfl, rfl, ?_⟩
  · rw [hresp]
    simp [getRequestedFields, hfields, applyFieldFilter, FieldsVal.truthy]
  · intro k hk hkne
    simp only [defaultFieldNames, List.mem_cons, List.not_mem_nil, or_false] at hk
    rcases hk with rfl|rfl|rfl|rfl|rfl|rfl|rfl|rfl|rfl|rfl <;>
      first | rfl | exact absurd rfl hkne

/-- Witness for C7: a PDF with `title = "Report"` and 3 pages yields the full
default dict with those values. -/
theorem default_metadata_fields_witness :
    (extract_pdf_metadata ⟨some "k", some ⟨"r.pdf"⟩, none⟩
        ⟨"/tmp/m7.pdf", .ok (), .error (), .ok (), .ok (some [("title", "Report")]), 3⟩
        ⟨[], [], [], 0, 0, 0⟩).1.body.metadata
      = some (all_metadata [("title", "Report")] 3) ∧
    (all_metadata [("title", "Report")] 3).lookup "title" = some (.s "Report") ∧
    (all_metadata [("title", "Report")] 3).lookup "pageCount" = some (.n 3) := by
  have h := default_metadata_fields ⟨some "k", some ⟨"r.pdf"⟩, none⟩
      ⟨"/tmp/m7.pdf", .ok (), .error (), .ok (), .ok (some [("title", "Report")]), 3⟩
      ⟨[], [], [], 0, 0, 0⟩ ⟨"r.pdf"⟩ rfl (by decide) (by decide) rfl rfl rfl
      [("title", "Report")] rfl
  exact ⟨h.2.1, h.2.2.2.2 "title" (by decide) (by decide), h.2.2.2.1⟩

/-! ### C8 -/

/-- C8 (code bug): the claim — and §4.4/Design Notes of the spec — say the
metadata invoker closes the document handle before returning on both paths,
but the `except` block of `extract_pdf_metadata` never calls `doc.close()`:
on a request where `fitz.open` succeeds and reading `doc.metadata` raises,
the handler returns the 500 envelope with the handle still open (one open
logged, zero closes). -/
theorem metadata_error_path_handle_leak :
    (extract_pdf_metadata ⟨some "k", some ⟨"a.pdf"⟩, none⟩
        ⟨"/tmp/m8.pdf", .ok (), .error (), .ok (), .error "broken xref", 0⟩
        ⟨[], [], [], 0, 0, 0⟩).1 = errorResponse 500 "broken xref" ∧
    (extract_pdf_metadata ⟨some "k", some ⟨"a.pdf"⟩, none⟩
        ⟨"/tmp/m8.pdf", .ok (), .error (), .ok (), .error "broken xref", 0⟩
        ⟨[], [], [], 0, 0, 0⟩).2.docOpened = 1 ∧
    (extract_pdf_metadata ⟨some "k", some ⟨"a.pdf"⟩, none⟩
        ⟨"/tmp/m8.pdf", .ok (), .error (), .ok (), .error "broken xref", 0⟩
        ⟨[], [], [], 0, 0, 0⟩).2.docClosed = 0 := by decide

/-! ### C9 -/

/-- C9: for every path-shape request — through the auth gate, on success and
on every error path — no temporary file is created or deleted and the
filesystem is left exactly as it was: the temp-creation log, the unlink log
and the set of files on disk are all unchanged. -/
theorem path_shape_frame (secret : String) (apiKey : Option String)
    (data : Option (List (String × String))) (orc : PathOracle) (w : World) :
    ((convertPathRoute secret apiKey data orc w).2.fs = w.fs) ∧
    ((convertPathRoute secret apiKey data orc w).2.tempCreated = w.tempCreated) ∧
    ((convertPathRoute secret apiKey data orc w).2.unlinked = w.unlinked) := by
  unfold convertPathRoute require_api_key convert_pdf_from_path
  repeat' split
  all_goals first | rfl | simp [apply_ite]

/-! ### C10 -/

/-- C10: when the `fields` form value parses successfully to the empty JSON
list `[]`, the response still contains the full default dict — all ten
default keys — because the empty Python list is falsy and the filter branch
is skipped, exactly as for an absent or unparsable filter. -/
theorem empty_filter_returns_all_fields (req : UploadRequest)
    (orc : MetadataOracle) (w : World) (f : UploadedFile)
    (hfile : req.file = some f) (hname : f.filename ≠ "")
    (hpdf : pyEndsWith (pyLower f.filename) ".pdf" = true)
    (s : String) (hfields : req.fields = some s) (hs : s ≠ "")
    (hloads : orc.loadsResult = .ok (.arr []))
    (hsave : orc.saveResult = .ok ())
    (hopen : orc.openResult = .ok ())
    (pdOpt : Option (List (String × String)))
    (hmeta : orc.metadataResult = .ok pdOpt) :
    (extract_pdf_metadata req orc w).1.status = 200 ∧
    (extract_pdf_metadata req orc w).1.body.metadata
      = some (all_metadata (pdOpt.getD []) orc.pageCount) ∧
    ((all_metadata (pdOpt.getD []) orc.pageCount).map Prod.fst = defaultFieldNames) := by
  have hresp := extract_success_response req orc w f hfile hname hpdf hsave hopen pdOpt hmeta
  refine ⟨by rw [hresp], ?_, rfl⟩
  rw [hresp]
  simp [getRequestedFields, hfields, hs, hloads, applyFieldFilter, FieldsVal.truthy,
    PyJson.pyTruthy]

/-- Witness for C10 at a concrete request with `fields = "[]"`. -/
theorem empty_filter_returns_all_fields_witness :
    (extract_pdf_metadata ⟨some "k", some ⟨"a.pdf"⟩, some "[]"⟩
        ⟨"/tmp/m10.pdf", .ok (), .ok (.arr []), .ok (), .ok (some []), 2⟩
        ⟨[], [], [], 0, 0, 0⟩).1.body.metadata
      = some (all_metadata [] 2) :=
  (empty_filter_returns_all_fields ⟨some "k", some ⟨"a.pdf"⟩, some "[]"⟩
      ⟨"/tmp/m10.pdf", .ok (), .ok (.arr []), .ok (), .ok (some []), 2⟩
      ⟨[], [], [], 0, 0, 0⟩ ⟨"a.pdf"⟩ rfl (by decide) (by decide) "[]" rfl (by decide)
      rfl rfl rfl (some []) rfl).2.1

end FolioFunnel
